import Mathlib

/-!
# Verification of the Statement Extraction & Normalization Engine

Shallow embedding of the core of `backend/main.py` (the bank-statement
PDF → transaction-ledger converter) and proofs about the claims of the
natural-language specification.

Conventions used throughout:

* Cell text is modelled as `String` / `List Char`; a cell extracted from a
  table row is `Option String` (the table detector may yield `None` cells).
* Amounts are modelled as exact rationals `ℚ` (the Python code uses binary
  floats; every numeric literal appearing in the claims is exactly
  representable, so no rounding behaviour is relevant to any claim).
* A document is modelled at the granularity the engine observes it:
  a list of pages, each page a list of grids (tables), each grid a list of
  rows of optional cell strings, plus the encryption data that
  `maybe_decrypt` inspects.
* Python string helpers (`str.strip`, `str.lower`, `str.upper`,
  `in`-substring, `str.replace(",","")`) are given explicit executable
  models over `List Char`.
-/

/-! ## Character and string helpers (models of Python `str` operations) -/

/-- ASCII digit test, `'0'..'9'`. -/
def isDigitCh (c : Char) : Bool :=
  48 ≤ c.toNat && c.toNat ≤ 57

/-- Numeric value of a digit character. -/
def dVal (c : Char) : Nat := c.toNat - 48

/-- The digit character for `n % 10`. -/
def dCh (n : Nat) : Char := Char.ofNat (48 + n % 10)

/-- Whitespace test: the characters Python `str.strip()` removes
(ASCII portion). -/
def isSpaceCh (c : Char) : Bool :=
  c = ' ' || c = '\t' || c = '\n' || c = '\x0d' || c = '\x0b' || c = '\x0c'

/-- Model of Python `str.strip()` on a character list. -/
def stripWs (cs : List Char) : List Char :=
  ((cs.dropWhile isSpaceCh).reverse.dropWhile isSpaceCh).reverse

/-- Model of Python `str.strip()`. -/
def trimStr (s : String) : String := ⟨stripWs s.data⟩

/-- Model of Python `str.lower()` (ASCII-relevant part). -/
def lowerStr (s : String) : String := ⟨s.data.map Char.toLower⟩

/-- Model of Python `str.upper()` (ASCII-relevant part). -/
def upperStr (s : String) : String := ⟨s.data.map Char.toUpper⟩

/-- Does `hay` start with `needle`? -/
def startsWithCh : List Char → List Char → Bool
  | [], _ => true
  | _ :: _, [] => false
  | a :: as, b :: bs => a = b && startsWithCh as bs

/-- Model of Python `needle in hay` substring containment. -/
def containsSub (needle : List Char) : List Char → Bool
  | [] => needle.isEmpty
  | c :: t => startsWithCh needle (c :: t) || containsSub needle t

/-- Model of Python `s.replace(",", "")`: every comma is removed. -/
def stripCommas (s : String) : String := ⟨s.data.filter (fun c => c ≠ ',')⟩

/-! ## Amount parsing: model of `_to_float` (main.py lines 46–52)

```python
def _to_float(x) -> float|None:
    if x is None: return None
    if isinstance(x,(int,float)): return float(x)
    s = str(x).replace(",","").strip()
    if s in ("","-","--"): return None
    try: return float(s)
    except: return None
```

In the engine every argument reaching `_to_float` is a table cell, i.e.
`None` or a string, so the embedding takes `Option String` (the
`isinstance` numeric branch is unreachable from the engine).  `float(s)`
is modelled by `parseFloatChars`, covering the decimal and scientific
literal forms (optional sign, digits with at most one point, optional
exponent); exotic Python literals (`nan`, `inf`, digit-group underscores)
are not modelled — no claim mentions them. -/

/-- Digits to their decimal value. -/
def digitsToNat (cs : List Char) : Nat :=
  cs.foldl (fun a c => 10 * a + dVal c) 0

/-- `10^e` over `ℚ` for an integer exponent. -/
def qpow10 : Int → ℚ
  | Int.ofNat n => ((10 ^ n : Nat) : ℚ)
  | Int.negSucc n => mkRat 1 (10 ^ (n + 1))

/-- Mantissa value `ip.fp` of integer part and fraction part digits. -/
def mantissaVal (ip fp : List Char) : ℚ :=
  mkRat (digitsToNat (ip ++ fp)) (10 ^ fp.length)

/-- Exponent digits: nonempty all-digit run consuming the whole rest. -/
def parseExpDigits (cs : List Char) : Option Nat :=
  if cs ≠ [] ∧ cs.all isDigitCh then some (digitsToNat cs) else none

/-- Exponent part after `e`/`E`: optional sign then digits. -/
def parseExpPart (cs : List Char) : Option Int :=
  match cs with
  | '-' :: t => (parseExpDigits t).map (fun n => -(n : Int))
  | '+' :: t => (parseExpDigits t).map (fun n => (n : Int))
  | _ => (parseExpDigits cs).map (fun n => (n : Int))

/-- Unsigned float literal: digits, optional point and fraction digits,
optional exponent; must consume the whole input. -/
def parseUnsigned (cs : List Char) : Option ℚ :=
  let ip := cs.takeWhile isDigitCh
  let r1 := cs.dropWhile isDigitCh
  match r1 with
  | [] => if ip.isEmpty then none else some (digitsToNat ip)
  | '.' :: r2 =>
    let fp := r2.takeWhile isDigitCh
    let r3 := r2.dropWhile isDigitCh
    if ip.isEmpty && fp.isEmpty then none
    else
      match r3 with
      | [] => some (mantissaVal ip fp)
      | 'e' :: r4 => (parseExpPart r4).map (fun e => mantissaVal ip fp * qpow10 e)
      | 'E' :: r4 => (parseExpPart r4).map (fun e => mantissaVal ip fp * qpow10 e)
      | _ => none
  | 'e' :: r4 =>
    if ip.isEmpty then none
    else (parseExpPart r4).map (fun e => (digitsToNat ip : ℚ) * qpow10 e)
  | 'E' :: r4 =>
    if ip.isEmpty then none
    else (parseExpPart r4).map (fun e => (digitsToNat ip : ℚ) * qpow10 e)
  | _ => none

/-- Model of Python `float(s)` on the literal forms the engine can meet. -/
def parseFloatChars (cs : List Char) : Option ℚ :=
  match cs with
  | '-' :: t => (parseUnsigned t).map (fun q => -q)
  | '+' :: t => parseUnsigned t
  | _ => parseUnsigned cs

/-- The normalized amount text: commas removed, then stripped
(the order of operations in the source). -/
def prepAmount (s : String) : String := trimStr (stripCommas s)

/-- Model of `_to_float` (main.py lines 46–52) on `Option String` cells. -/
def _to_float (x : Option String) : Option ℚ :=
  match x with
  | none => none
  | some v =>
    let s := prepAmount v
    if s = "" ∨ s = "-" ∨ s = "--" then none
    else parseFloatChars s.data

/-! quick sanity examples (compile-time checks of the model) -/

/-! ## Date parsing: model of `_parse_date` (main.py lines 38–44)

```python
def _parse_date(d: str|None) -> str|None:
    if not d: return None
    d = d.strip()
    for fmt in ("%d/%m/%Y","%d/%m/%y","%d-%b-%y","%d-%b-%Y"):
        try: return datetime.strptime(d, fmt).strftime("%Y-%m-%d")
        except: pass
    return None
```

The four `strptime` format strings are modelled by explicit character
parsers following CPython's `_strptime` regexes:
`%d` = `3[01]|[12]\d|0[1-9]|[1-9]`, `%m` = `1[0-2]|0[1-9]|[1-9]`,
`%Y` = exactly four digits, `%y` = exactly two digits
(`00–68 → 2000–2068`, `69–99 → 1969–1999`), `%b` = a case-insensitive
three-letter English month abbreviation; the whole string must be
consumed, and the resulting numbers must form a real calendar date
(`datetime` validates day-of-month, with leap years).  The output is the
`strftime("%Y-%m-%d")` rendering. -/

/-- `%d`: day number per the strptime regex `3[01]|[12]\d|0[1-9]|[1-9]`
(leftmost alternative wins; a two-digit alternative is never abandoned in
favour of a one-digit one because in all four formats the next token is a
non-digit separator). -/
def matchDay (cs : List Char) : Option (Nat × List Char) :=
  match cs with
  | [] => none
  | c1 :: t1 =>
    if c1 = '3' then
      match t1 with
      | c2 :: t2 => if c2 = '0' || c2 = '1' then some (30 + dVal c2, t2) else some (3, t1)
      | [] => some (3, [])
    else if c1 = '1' || c1 = '2' then
      match t1 with
      | c2 :: t2 => if isDigitCh c2 then some (10 * dVal c1 + dVal c2, t2) else some (dVal c1, t1)
      | [] => some (dVal c1, [])
    else if c1 = '0' then
      match t1 with
      | c2 :: t2 => if isDigitCh c2 && !(c2 = '0') then some (dVal c2, t2) else none
      | [] => none
    else if isDigitCh c1 && !(c1 = '0') then some (dVal c1, t1)
    else none

/-- `%m`: month number per the strptime regex `1[0-2]|0[1-9]|[1-9]`. -/
def matchMonth (cs : List Char) : Option (Nat × List Char) :=
  match cs with
  | [] => none
  | c1 :: t1 =>
    if c1 = '1' then
      match t1 with
      | c2 :: t2 =>
        if c2 = '0' || c2 = '1' || c2 = '2' then some (10 + dVal c2, t2) else some (1, t1)
      | [] => some (1, [])
    else if c1 = '0' then
      match t1 with
      | c2 :: t2 => if isDigitCh c2 && !(c2 = '0') then some (dVal c2, t2) else none
      | [] => none
    else if isDigitCh c1 && !(c1 = '0') then some (dVal c1, t1)
    else none

/-- `%Y`: exactly four digits. -/
def matchYear4 (cs : List Char) : Option (Nat × List Char) :=
  match cs with
  | a :: b :: c :: d :: rest =>
    if isDigitCh a && isDigitCh b && isDigitCh c && isDigitCh d then
      some (1000 * dVal a + 100 * dVal b + 10 * dVal c + dVal d, rest)
    else none
  | _ => none

/-- CPython century rule for `%y`: `00–68 → 2000s`, `69–99 → 1900s`. -/
def yCentury (yy : Nat) : Nat := if yy ≤ 68 then 2000 + yy else 1900 + yy

/-- `%y`: exactly two digits, then the century rule. -/
def matchYear2 (cs : List Char) : Option (Nat × List Char) :=
  match cs with
  | a :: b :: rest =>
    if isDigitCh a && isDigitCh b then some (yCentury (10 * dVal a + dVal b), rest)
    else none
  | _ => none

/-- Month number of a lower-cased three-letter abbreviation. -/
def monFromAbbr (s : List Char) : Option Nat :=
  if s = ['j', 'a', 'n'] then some 1
  else if s = ['f', 'e', 'b'] then some 2
  else if s = ['m', 'a', 'r'] then some 3
  else if s = ['a', 'p', 'r'] then some 4
  else if s = ['m', 'a', 'y'] then some 5
  else if s = ['j', 'u', 'n'] then some 6
  else if s = ['j', 'u', 'l'] then some 7
  else if s = ['a', 'u', 'g'] then some 8
  else if s = ['s', 'e', 'p'] then some 9
  else if s = ['o', 'c', 't'] then some 10
  else if s = ['n', 'o', 'v'] then some 11
  else if s = ['d', 'e', 'c'] then some 12
  else none

/-- `%b`: case-insensitive English month abbreviation. -/
def matchMonAbbr (cs : List Char) : Option (Nat × List Char) :=
  match cs with
  | a :: b :: c :: rest =>
    match monFromAbbr [a.toLower, b.toLower, c.toLower] with
    | some m => some (m, rest)
    | none => none
  | _ => none

/-- Consume one expected literal character. -/
def expectCh (c : Char) (cs : List Char) : Option (List Char) :=
  match cs with
  | x :: rest => if x = c then some rest else none
  | [] => none

/-- Gregorian leap year, as `datetime` checks it. -/
def isLeap (y : Nat) : Bool := (y % 4 = 0 && !(y % 100 = 0)) || y % 400 = 0

/-- Days in a month, as `datetime` checks it. -/
def daysInMonth (y m : Nat) : Nat :=
  if m = 2 then (if isLeap y then 29 else 28)
  else if m = 4 || m = 6 || m = 9 || m = 11 then 30
  else 31

/-- `datetime` constructor validity (`MINYEAR = 1`, `MAXYEAR = 9999`). -/
def validDate (y m d : Nat) : Bool :=
  1 ≤ y && y ≤ 9999 && 1 ≤ m && m ≤ 12 && 1 ≤ d && d ≤ daysInMonth y m

/-- Format `%d/%m/%Y`: returns `(year, month, day)`. -/
def parseFmtDMY4 (cs : List Char) : Option (Nat × Nat × Nat) := do
  let (d, r1) ← matchDay cs
  let r2 ← expectCh '/' r1
  let (m, r3) ← matchMonth r2
  let r4 ← expectCh '/' r3
  let (y, r5) ← matchYear4 r4
  if r5 = [] then pure (y, m, d) else none

/-- Format `%d/%m/%y`. -/
def parseFmtDMY2 (cs : List Char) : Option (Nat × Nat × Nat) := do
  let (d, r1) ← matchDay cs
  let r2 ← expectCh '/' r1
  let (m, r3) ← matchMonth r2
  let r4 ← expectCh '/' r3
  let (y, r5) ← matchYear2 r4
  if r5 = [] then pure (y, m, d) else none

/-- Format `%d-%b-%y`. -/
def parseFmtDBY2 (cs : List Char) : Option (Nat × Nat × Nat) := do
  let (d, r1) ← matchDay cs
  let r2 ← expectCh '-' r1
  let (m, r3) ← matchMonAbbr r2
  let r4 ← expectCh '-' r3
  let (y, r5) ← matchYear2 r4
  if r5 = [] then pure (y, m, d) else none

/-- Format `%d-%b-%Y`. -/
def parseFmtDBY4 (cs : List Char) : Option (Nat × Nat × Nat) := do
  let (d, r1) ← matchDay cs
  let r2 ← expectCh '-' r1
  let (m, r3) ← matchMonAbbr r2
  let r4 ← expectCh '-' r3
  let (y, r5) ← matchYear4 r4
  if r5 = [] then pure (y, m, d) else none

/-- Zero-padded two-digit rendering (`strftime` `%d`, `%m`, `%y`). -/
def pad2 (n : Nat) : List Char := [dCh (n / 10), dCh n]

/-- Zero-padded four-digit rendering (`strftime` `%Y` for years ≥ 1000;
all years in the claims are four-digit). -/
def pad4 (n : Nat) : List Char := [dCh (n / 1000), dCh (n / 100), dCh (n / 10), dCh n]

/-- `strftime("%Y-%m-%d")`: the canonical ISO output. -/
def isoStr (y m d : Nat) : String := ⟨pad4 y ++ '-' :: (pad2 m ++ '-' :: pad2 d)⟩

/-- One `strptime`-then-`strftime` attempt: parse with one format, check
calendar validity, render ISO. -/
def tryFmt (p : List Char → Option (Nat × Nat × Nat)) (cs : List Char) : Option String :=
  match p cs with
  | some (y, m, d) => if validDate y m d then some (isoStr y m d) else none
  | none => none

/-- Model of `_parse_date` (main.py lines 38–44). -/
def _parse_date (x : Option String) : Option String :=
  match x with
  | none => none
  | some s =>
    if s = "" then none
    else
      let t := stripWs s.data
      ((tryFmt parseFmtDMY4 t).orElse fun _ =>
        ((tryFmt parseFmtDMY2 t).orElse fun _ =>
          ((tryFmt parseFmtDBY2 t).orElse fun _ =>
            tryFmt parseFmtDBY4 t)))

/-! ## Header resolution: `HDFC_HEADERS` and `_match_field`
(main.py lines 63–74)

```python
HDFC_HEADERS = {
    "date": {"date","txn date","transaction date"},
    "narration": {"narration","description","particulars","remarks"},
    "refno": {"chq/ref no.","ref no.","cheque no","cheque/ref no","utr no","rrn"},
    "debit": {"withdrawal amt.","withdrawal amount","debit","withdrawal"},
    "credit": {"deposit amt.","deposit amount","credit","deposit"},
}
def _match_field(headers_row, key):
    low = [(h or "").strip().lower() for h in headers_row]
    for i,h in enumerate(low):
        if any(alias in h for alias in HDFC_HEADERS[key]): return i
    return None
```

Python set-literal iteration order is irrelevant because membership is
used only through `any`, which is order-insensitive; the aliases are
modelled as lists. -/

/-- The alias table keyed by canonical field name. -/
def HDFC_HEADERS : String → List String
  | "date" => ["date", "txn date", "transaction date"]
  | "narration" => ["narration", "description", "particulars", "remarks"]
  | "refno" => ["chq/ref no.", "ref no.", "cheque no", "cheque/ref no", "utr no", "rrn"]
  | "debit" => ["withdrawal amt.", "withdrawal amount", "debit", "withdrawal"]
  | "credit" => ["deposit amt.", "deposit amount", "credit", "deposit"]
  | _ => []

/-- `(h or "").strip().lower()`: the lowering applied to one header cell. -/
def lowCell (h : Option String) : String := lowerStr (trimStr (h.getD ""))

/-- `any(alias in h for alias in HDFC_HEADERS[key])`. -/
def aliasHit (key : String) (h : String) : Bool :=
  (HDFC_HEADERS key).any fun al => containsSub al.data h.data

/-- The `for i,h in enumerate(low)` loop of `_match_field`. -/
def matchFieldGo (key : String) : List String → Nat → Option Nat
  | [], _ => none
  | h :: t, i => if aliasHit key h then some i else matchFieldGo key t (i + 1)

/-- Model of `_match_field` (main.py lines 70–74): index of the first
column whose lowered text contains one of the field's aliases. -/
def _match_field (headers_row : List (Option String)) (key : String) : Option Nat :=
  matchFieldGo key (headers_row.map lowCell) 0

/-- The cell (in its original, un-lowered form) designated by a field's
resolved column index. -/
def matchedCell (row : List (Option String)) (key : String) : Option (Option String) :=
  (_match_field row key).bind fun i => row[i]?

/-! ## Row assembly and the whole-document parse: `parse_hdfc_pdf`
(main.py lines 76–106)

```python
def parse_hdfc_pdf(pdf_bytes: bytes) -> pd.DataFrame:
    rows = []
    with pdfplumber.open(io.BytesIO(pdf_bytes)) as pdf:
        for page in pdf.pages:
            for tbl in (page.extract_tables() or []):
                if not tbl or len(tbl) < 2: continue
                hdr = tbl[0]
                i_date=_match_field(hdr,"date"); i_narr=_match_field(hdr,"narration")
                i_ref=_match_field(hdr,"refno"); i_deb=_match_field(hdr,"debit")
                i_cred=_match_field(hdr,"credit")
                if i_date is None or (i_deb is None and i_cred is None): continue
                for r in tbl[1:]:
                    def safe(i): return r[i] if i is not None and i < len(r) else None
                    date=_parse_date(safe(i_date))
                    narr=(safe(i_narr) or "").strip()
                    ref =(safe(i_ref) or "").strip()
                    deb =_to_float(safe(i_deb)) or 0.0
                    cre =_to_float(safe(i_cred)) or 0.0
                    if not (date and (deb or cre or narr or ref)): continue
                    if "total" in (narr.lower() if narr else ""): continue
                    rows.append({... "Balance": ""})
    if not rows:
        raise ValueError("No statement table found (if scanned, OCR comes next).")
    return pd.DataFrame(rows, ...)
```

The pdfplumber extraction is the engine's capability boundary: the
document is modelled directly as the page-by-page list of grids that
`extract_tables` yields.  Python truthiness in the row filter: `date` is
`None` or a nonempty `strftime` string, so `date` is truthy iff present;
`deb`/`cre` are floats, truthy iff nonzero; `narr`/`ref` are strings,
truthy iff nonempty. -/

/-- A detected table: rows of optional cell strings; row 0 is the header. -/
abbrev Grid := List (List (Option String))

/-- One normalized output transaction (a row of the result DataFrame). -/
structure Txn where
  date : String
  narration : String
  refNo : String
  debit : ℚ
  credit : ℚ
  balance : String
deriving Repr, DecidableEq

/-- The five resolved column indices of one grid's header. -/
structure HeaderIdx where
  iDate : Option Nat
  iNarr : Option Nat
  iRef : Option Nat
  iDeb : Option Nat
  iCred : Option Nat
deriving Repr, DecidableEq

/-- Resolve all five fields on a header row. -/
def resolveHeader (hdr : List (Option String)) : HeaderIdx :=
  { iDate := _match_field hdr "date"
    iNarr := _match_field hdr "narration"
    iRef := _match_field hdr "refno"
    iDeb := _match_field hdr "debit"
    iCred := _match_field hdr "credit" }

/-- `safe(i)`: cell at a resolved index, `None` when the index is absent
or out of range (a cell may itself be `None`). -/
def safeCell (r : List (Option String)) (i : Option Nat) : Option String :=
  match i with
  | none => none
  | some i => if i < r.length then (r[i]?).getD none else none

/-- `date=_parse_date(safe(i_date))`. -/
def dateOf (h : HeaderIdx) (r : List (Option String)) : Option String :=
  _parse_date (safeCell r h.iDate)

/-- `narr=(safe(i_narr) or "").strip()`. -/
def narrOf (h : HeaderIdx) (r : List (Option String)) : String :=
  trimStr ((safeCell r h.iNarr).getD "")

/-- `ref=(safe(i_ref) or "").strip()`. -/
def refOf (h : HeaderIdx) (r : List (Option String)) : String :=
  trimStr ((safeCell r h.iRef).getD "")

/-- `deb=_to_float(safe(i_deb)) or 0.0`  (`0.0 or 0.0` is `0.0`, so this
is exactly default-to-zero on `None` or zero). -/
def debOf (h : HeaderIdx) (r : List (Option String)) : ℚ :=
  (_to_float (safeCell r h.iDeb)).getD 0

/-- `cre=_to_float(safe(i_cred)) or 0.0`. -/
def creOf (h : HeaderIdx) (r : List (Option String)) : ℚ :=
  (_to_float (safeCell r h.iCred)).getD 0

/-- The per-row body of the `for r in tbl[1:]` loop: `none` when the row
is skipped by either `continue`, otherwise the appended record. -/
def rowToTxn (h : HeaderIdx) (r : List (Option String)) : Option Txn :=
  if (dateOf h r).isSome &&
      (!(debOf h r = 0) || !(creOf h r = 0) || !(narrOf h r = "") || !(refOf h r = "")) then
    if containsSub "total".data (lowerStr (narrOf h r)).data then none
    else
      some { date := (dateOf h r).getD ""
             narration := if narrOf h r = "" then refOf h r else narrOf h r
             refNo := refOf h r
             debit := debOf h r
             credit := creOf h r
             balance := "" }
  else none

/-- The per-table body of the `for tbl in ...` loop: skip short grids,
resolve the header, skip unaccepted grids, else process the data rows. -/
def tableTxns : Grid → List Txn
  | [] => []
  | hdr :: dataRows =>
    if dataRows.isEmpty then []
    else
      let h := resolveHeader hdr
      if h.iDate.isNone || (h.iDeb.isNone && h.iCred.isNone) then []
      else dataRows.filterMap (rowToTxn h)

/-- All rows accumulated over all pages and tables, in encounter order. -/
def allTxns (pages : List (List Grid)) : List Txn :=
  pages.flatMap fun page => page.flatMap tableTxns

/-- The single failure message of `parse_hdfc_pdf`. -/
def noTableMsg : String := "No statement table found (if scanned, OCR comes next)."

/-- Model of `parse_hdfc_pdf` (main.py lines 76–106): the ordered row list
on success, the single `ValueError` message when no row survived. -/
def parse_hdfc_pdf (pages : List (List Grid)) : Except String (List Txn) :=
  let rows := allTxns pages
  if rows.isEmpty then Except.error noTableMsg else Except.ok rows

/-! ## Decryption adapter: `maybe_decrypt` (main.py lines 54–61)

```python
def maybe_decrypt(pdf_bytes: bytes, password: Optional[str]) -> bytes:
    if not password: return pdf_bytes
    reader = PdfReader(io.BytesIO(pdf_bytes))
    if reader.is_encrypted and reader.decrypt(password) == 0:
        raise ValueError("Incorrect PDF password.")
    w = PdfWriter()
    for p in reader.pages: w.add_page(p)
    out = io.BytesIO(); w.write(out); return out.getvalue()
```

The byte buffer is modelled at the granularity the engine observes it:
the page/grid content plus the pypdf-visible protection state
(`is_encrypted`, and whether a given password unlocks the file, modelled
as equality with the document's password).  The `PdfWriter` rebuild
re-serializes every page without protection: content is preserved, the
protection flag is cleared. -/

/-- A PDF document as the engine observes it. -/
structure PdfDoc where
  /-- Pages, each carrying the grids `extract_tables` would yield. -/
  pages : List (List Grid)
  /-- `reader.is_encrypted`. -/
  encrypted : Bool
  /-- The password that unlocks the document (`reader.decrypt(p) != 0`
  iff `p` equals this; only meaningful when `encrypted`). -/
  pwd : String
deriving Repr, DecidableEq

/-- The `ValueError` message of a failed decryption. -/
def badPwdMsg : String := "Incorrect PDF password."

/-- Model of `maybe_decrypt` (main.py lines 54–61).  `not password` is
true for both `None` and the empty string. -/
def maybe_decrypt (doc : PdfDoc) (password : Option String) : Except String PdfDoc :=
  match password with
  | none => Except.ok doc
  | some p =>
    if p = "" then Except.ok doc
    else if doc.encrypted && !(p = doc.pwd) then Except.error badPwdMsg
    else Except.ok { doc with encrypted := false }

/-! ## The conversion entry point: `convert` (main.py lines 109–138)

```python
    try:
        data = maybe_decrypt(raw, password)
        if bank.strip().upper()=="HDFC":
            df = parse_hdfc_pdf(data)
        else:
            return JSONResponse({"error":f"Bank '{bank}' not supported yet. Use HDFC."}, status_code=400)
    except Exception as e:
        return JSONResponse({"error": f"Parse failed: {e}"}, status_code=422)
```

Only the engine boundary is modelled (the surrounding HTTP plumbing —
upload checks, the 12 MB limit, counters, CSV streaming — is out of the
specified core).  `maybe_decrypt` is evaluated BEFORE the bank test; both
exceptions are caught by the same handler and surface as 422 "Parse
failed" responses.  To settle ordering claims, `convert` also returns the
list of engine collaborators that were invoked, in call order. -/

/-- Classified outcome of one conversion request. -/
inductive ConvResult where
  /-- 200: the normalized ledger. -/
  | ok : List Txn → ConvResult
  /-- 400: `Bank '…' not supported yet. Use HDFC.` (names the raw code). -/
  | unsupportedBank : String → ConvResult
  /-- 422: `Parse failed: …` wrapping the caught exception message. -/
  | parseFailed : String → ConvResult
deriving Repr, DecidableEq

/-- Engine collaborators whose invocation order the claims talk about. -/
inductive EngineCall where
  /-- `maybe_decrypt` was called on the document bytes. -/
  | unlockCall : EngineCall
  /-- `parse_hdfc_pdf` (table location) was called on the document bytes. -/
  | locateCall : EngineCall
deriving Repr, DecidableEq

/-- Model of the try-block of `convert` (main.py lines 123–130), paired
with the trace of engine calls. -/
def convert (bank : String) (doc : PdfDoc) (password : Option String) :
    ConvResult × List EngineCall :=
  match maybe_decrypt doc password with
  | Except.error msg => (ConvResult.parseFailed msg, [EngineCall.unlockCall])
  | Except.ok data =>
    if upperStr (trimStr bank) = "HDFC" then
      match parse_hdfc_pdf data.pages with
      | Except.error msg =>
        (ConvResult.parseFailed msg, [EngineCall.unlockCall, EngineCall.locateCall])
      | Except.ok txns => (ConvResult.ok txns, [EngineCall.unlockCall, EngineCall.locateCall])
    else (ConvResult.unsupportedBank bank, [EngineCall.unlockCall])

/-- `strftime %b` month abbreviation (C locale). -/
def monAbbrCh : Nat → List Char
  | 1 => ['J', 'a', 'n']
  | 2 => ['F', 'e', 'b']
  | 3 => ['M', 'a', 'r']
  | 4 => ['A', 'p', 'r']
  | 5 => ['M', 'a', 'y']
  | 6 => ['J', 'u', 'n']
  | 7 => ['J', 'u', 'l']
  | 8 => ['A', 'u', 'g']
  | 9 => ['S', 'e', 'p']
  | 10 => ['O', 'c', 't']
  | 11 => ['N', 'o', 'v']
  | 12 => ['D', 'e', 'c']
  | _ => []

/-- The `%d/%m/%Y` rendering of a calendar date. -/
def renderDMY4 (d m y : Nat) : List Char := pad2 d ++ '/' :: (pad2 m ++ '/' :: pad4 y)

/-- The `%d/%m/%y` rendering of a calendar date. -/
def renderDMY2 (d m y : Nat) : List Char := pad2 d ++ '/' :: (pad2 m ++ '/' :: pad2 (y % 100))

/-- The `%d-%b-%y` rendering of a calendar date. -/
def renderDBY2 (d m y : Nat) : List Char := pad2 d ++ '-' :: (monAbbrCh m ++ '-' :: pad2 (y % 100))

/-- The `%d-%b-%Y` rendering of a calendar date. -/
def renderDBY4 (d m y : Nat) : List Char := pad2 d ++ '-' :: (monAbbrCh m ++ '-' :: pad4 y)

/-! ## Helper lemmas: digit characters and the format matchers -/

theorem dCh_mod (n : Nat) : dCh n = dCh (n % 10) :=
  congrArg Char.ofNat (by omega)

theorem isDigitCh_dCh (n : Nat) : isDigitCh (dCh n) = true := by
  rw [dCh_mod]
  have h : n % 10 < 10 := Nat.mod_lt _ (by norm_num)
  generalize n % 10 = k at h ⊢
  interval_cases k <;> decide

theorem dVal_dCh (n : Nat) : dVal (dCh n) = n % 10 := by
  conv_lhs => rw [dCh_mod]
  have h : n % 10 < 10 := Nat.mod_lt _ (by norm_num)
  generalize n % 10 = k at h ⊢
  interval_cases k <;> decide

theorem isSpaceCh_dCh (n : Nat) : isSpaceCh (dCh n) = false := by
  rw [dCh_mod]
  have h : n % 10 < 10 := Nat.mod_lt _ (by norm_num)
  generalize n % 10 = k at h ⊢
  interval_cases k <;> decide

theorem matchDay_pad2 (d : Nat) (h1 : 1 ≤ d) (h2 : d ≤ 31) (rest : List Char) :
    matchDay (pad2 d ++ rest) = some (d, rest) := by
  interval_cases d <;> rfl

theorem matchMonth_pad2 (m : Nat) (h1 : 1 ≤ m) (h2 : m ≤ 12) (rest : List Char) :
    matchMonth (pad2 m ++ rest) = some (m, rest) := by
  interval_cases m <;> rfl

theorem matchYear4_pad4 (y : Nat) (h : y ≤ 9999) (rest : List Char) :
    matchYear4 (pad4 y ++ rest) = some (y, rest) := by
  simp only [pad4, List.cons_append, List.nil_append, matchYear4,
    isDigitCh_dCh, Bool.and_self, if_pos, dVal_dCh]
  refine congrArg some (Prod.ext ?_ rfl)
  show 1000 * (y / 1000 % 10) + 100 * (y / 100 % 10) + 10 * (y / 10 % 10) + y % 10 = y
  omega

theorem matchYear2_pad2 (yy : Nat) (h : yy < 100) (rest : List Char) :
    matchYear2 (pad2 yy ++ rest) = some (yCentury yy, rest) := by
  interval_cases yy <;> rfl

theorem matchMonAbbr_render (m : Nat) (h1 : 1 ≤ m) (h2 : m ≤ 12) (rest : List Char) :
    matchMonAbbr (monAbbrCh m ++ rest) = some (m, rest) := by
  interval_cases m <;> rfl

theorem matchYear4_pad2 (a : Nat) : matchYear4 (pad2 a) = none := rfl

theorem matchYear2_pad4_ne (y : Nat) (rest : List Char) :
    ∀ r ∈ matchYear2 (pad4 y ++ rest), ¬r.2 = [] := by
  simp only [pad4, List.cons_append, matchYear2, isDigitCh_dCh, Bool.and_self, if_pos]
  intro r hr
  simp only [Option.mem_def, Option.some_inj] at hr
  subst hr
  simp

theorem validDate_true (y m d : Nat) (hy1 : 1 ≤ y) (hy2 : y ≤ 9999) (hm1 : 1 ≤ m)
    (hm2 : m ≤ 12) (hd1 : 1 ≤ d) (hd2 : d ≤ daysInMonth y m) : validDate y m d = true := by
  simp only [validDate, Bool.and_eq_true, decide_eq_true_eq]
  omega

theorem matchYear4_pad4_nil (y : Nat) (h : y ≤ 9999) :
    matchYear4 (pad4 y) = some (y, []) := by
  have := matchYear4_pad4 y h []
  simpa using this

theorem matchYear2_pad2_nil (yy : Nat) (h : yy < 100) :
    matchYear2 (pad2 yy) = some (yCentury yy, []) := by
  have := matchYear2_pad2 yy h []
  simpa using this

theorem parseFmtDMY4_render (d m y : Nat) (hd1 : 1 ≤ d) (hd2 : d ≤ 31) (hm1 : 1 ≤ m)
    (hm2 : m ≤ 12) (hy : y ≤ 9999) :
    parseFmtDMY4 (renderDMY4 d m y) = some (y, m, d) := by
  simp only [parseFmtDMY4, renderDMY4, matchDay_pad2 d hd1 hd2, Option.bind_eq_bind,
    Option.some_bind, expectCh, if_pos, matchMonth_pad2 m hm1 hm2, matchYear4_pad4_nil y hy]
  rfl

theorem parseFmtDMY2_render (d m y : Nat) (hd1 : 1 ≤ d) (hd2 : d ≤ 31) (hm1 : 1 ≤ m)
    (hm2 : m ≤ 12) :
    parseFmtDMY2 (renderDMY2 d m y) = some (yCentury (y % 100), m, d) := by
  simp only [parseFmtDMY2, renderDMY2, matchDay_pad2 d hd1 hd2, Option.bind_eq_bind,
    Option.some_bind, expectCh, if_pos, matchMonth_pad2 m hm1 hm2,
    matchYear2_pad2_nil (y % 100) (Nat.mod_lt _ (by norm_num))]
  rfl

theorem parseFmtDBY2_render (d m y : Nat) (hd1 : 1 ≤ d) (hd2 : d ≤ 31) (hm1 : 1 ≤ m)
    (hm2 : m ≤ 12) :
    parseFmtDBY2 (renderDBY2 d m y) = some (yCentury (y % 100), m, d) := by
  simp only [parseFmtDBY2, renderDBY2, matchDay_pad2 d hd1 hd2, Option.bind_eq_bind,
    Option.some_bind, expectCh, if_pos, matchMonAbbr_render m hm1 hm2,
    matchYear2_pad2_nil (y % 100) (Nat.mod_lt _ (by norm_num))]
  rfl

theorem parseFmtDBY4_render (d m y : Nat) (hd1 : 1 ≤ d) (hd2 : d ≤ 31) (hm1 : 1 ≤ m)
    (hm2 : m ≤ 12) (hy : y ≤ 9999) :
    parseFmtDBY4 (renderDBY4 d m y) = some (y, m, d) := by
  simp only [parseFmtDBY4, renderDBY4, matchDay_pad2 d hd1 hd2, Option.bind_eq_bind,
    Option.some_bind, expectCh, if_pos, matchMonAbbr_render m hm1 hm2,
    matchYear4_pad4_nil y hy]
  rfl

theorem parseFmtDMY4_renderDMY2 (d m y : Nat) (hd1 : 1 ≤ d) (hd2 : d ≤ 31) (hm1 : 1 ≤ m)
    (hm2 : m ≤ 12) : parseFmtDMY4 (renderDMY2 d m y) = none := by
  simp only [parseFmtDMY4, renderDMY2, matchDay_pad2 d hd1 hd2, Option.bind_eq_bind,
    Option.some_bind, expectCh, if_pos, matchMonth_pad2 m hm1 hm2, matchYear4_pad2,
    Option.none_bind]

theorem parseFmtDMY4_renderDBY2 (d m y : Nat) (hd1 : 1 ≤ d) (hd2 : d ≤ 31) :
    parseFmtDMY4 (renderDBY2 d m y) = none := by
  simp only [parseFmtDMY4, renderDBY2, matchDay_pad2 d hd1 hd2, Option.bind_eq_bind,
    Option.some_bind, expectCh]
  rfl

theorem parseFmtDMY4_renderDBY4 (d m y : Nat) (hd1 : 1 ≤ d) (hd2 : d ≤ 31) :
    parseFmtDMY4 (renderDBY4 d m y) = none := by
  simp only [parseFmtDMY4, renderDBY4, matchDay_pad2 d hd1 hd2, Option.bind_eq_bind,
    Option.some_bind, expectCh]
  rfl

theorem parseFmtDMY2_renderDBY2 (d m y : Nat) (hd1 : 1 ≤ d) (hd2 : d ≤ 31) :
    parseFmtDMY2 (renderDBY2 d m y) = none := by
  simp only [parseFmtDMY2, renderDBY2, matchDay_pad2 d hd1 hd2, Option.bind_eq_bind,
    Option.some_bind, expectCh]
  rfl

theorem parseFmtDMY2_renderDBY4 (d m y : Nat) (hd1 : 1 ≤ d) (hd2 : d ≤ 31) :
    parseFmtDMY2 (renderDBY4 d m y) = none := by
  simp only [parseFmtDMY2, renderDBY4, matchDay_pad2 d hd1 hd2, Option.bind_eq_bind,
    Option.some_bind, expectCh]
  rfl

theorem parseFmtDBY2_renderDBY4 (d m y : Nat) (hd1 : 1 ≤ d) (hd2 : d ≤ 31) (hm1 : 1 ≤ m)
    (hm2 : m ≤ 12) : parseFmtDBY2 (renderDBY4 d m y) = none := by
  simp only [parseFmtDBY2, renderDBY4, matchDay_pad2 d hd1 hd2, Option.bind_eq_bind,
    Option.some_bind, expectCh, if_pos, matchMonAbbr_render m hm1 hm2, pad4,
    List.cons_append, matchYear2, isDigitCh_dCh, Bool.and_self, if_pos]
  simp

theorem dropWhile_eq_self_of (p : Char → Bool) (cs : List Char)
    (h : ∀ c ∈ cs, p c = false) : cs.dropWhile p = cs := by
  cases cs with
  | nil => rfl
  | cons a t =>
    rw [List.dropWhile_cons, h a (List.mem_cons_self a t)]
    simp

theorem stripWs_eq_self (cs : List Char) (h : ∀ c ∈ cs, isSpaceCh c = false) :
    stripWs cs = cs := by
  unfold stripWs
  rw [dropWhile_eq_self_of _ _ h,
    dropWhile_eq_self_of _ _ (fun c hc => h c (List.mem_reverse.mp hc)),
    List.reverse_reverse]

theorem noSpace_pad2 (n : Nat) : ∀ c ∈ pad2 n, isSpaceCh c = false := by
  intro c hc
  simp only [pad2, List.mem_cons, List.not_mem_nil, or_false] at hc
  rcases hc with rfl | rfl <;> exact isSpaceCh_dCh _

theorem noSpace_pad4 (n : Nat) : ∀ c ∈ pad4 n, isSpaceCh c = false := by
  intro c hc
  simp only [pad4, List.mem_cons, List.not_mem_nil, or_false] at hc
  rcases hc with rfl | rfl | rfl | rfl <;> exact isSpaceCh_dCh _

theorem noSpace_monAbbr (m : Nat) (h1 : 1 ≤ m) (h2 : m ≤ 12) :
    ∀ c ∈ monAbbrCh m, isSpaceCh c = false := by
  interval_cases m <;> decide

theorem pad2_ne_nil (n : Nat) : pad2 n ≠ [] := by simp [pad2]

/-- `_parse_date` on a whitespace-free nonempty raw string reduces to the
four-format attempt chain. -/
theorem parse_date_mk (cs : List Char) (hne : cs ≠ [])
    (hns : ∀ c ∈ cs, isSpaceCh c = false) :
    _parse_date (some ⟨cs⟩) =
      ((tryFmt parseFmtDMY4 cs).orElse fun _ =>
        ((tryFmt parseFmtDMY2 cs).orElse fun _ =>
          ((tryFmt parseFmtDBY2 cs).orElse fun _ => tryFmt parseFmtDBY4 cs))) := by
  simp only [_parse_date]
  rw [if_neg (by simpa [String.ext_iff] using hne)]
  show ((tryFmt parseFmtDMY4 (stripWs cs)).orElse _) = _
  rw [stripWs_eq_self cs hns]

theorem daysInMonth_le31 (y m : Nat) : daysInMonth y m ≤ 31 := by
  unfold daysInMonth
  split
  · split <;> norm_num
  · split <;> norm_num

theorem yCentury_mod (y : Nat) (h1 : 1969 ≤ y) (h2 : y ≤ 2068) :
    yCentury (y % 100) = y := by
  unfold yCentury
  split <;> omega

theorem noSpace_renderDMY4 (d m y : Nat) : ∀ c ∈ renderDMY4 d m y, isSpaceCh c = false := by
  intro c hc
  simp only [renderDMY4, List.mem_append, List.mem_cons] at hc
  rcases hc with h | rfl | h | rfl | h
  · exact noSpace_pad2 d c h
  · decide
  · exact noSpace_pad2 m c h
  · decide
  · exact noSpace_pad4 y c h

theorem noSpace_renderDMY2 (d m y : Nat) : ∀ c ∈ renderDMY2 d m y, isSpaceCh c = false := by
  intro c hc
  simp only [renderDMY2, List.mem_append, List.mem_cons] at hc
  rcases hc with h | rfl | h | rfl | h
  · exact noSpace_pad2 d c h
  · decide
  · exact noSpace_pad2 m c h
  · decide
  · exact noSpace_pad2 (y % 100) c h

theorem noSpace_renderDBY2 (d m y : Nat) (hm1 : 1 ≤ m) (hm2 : m ≤ 12) :
    ∀ c ∈ renderDBY2 d m y, isSpaceCh c = false := by
  intro c hc
  simp only [renderDBY2, List.mem_append, List.mem_cons] at hc
  rcases hc with h | rfl | h | rfl | h
  · exact noSpace_pad2 d c h
  · decide
  · exact noSpace_monAbbr m hm1 hm2 c h
  · decide
  · exact noSpace_pad2 (y % 100) c h

theorem noSpace_renderDBY4 (d m y : Nat) (hm1 : 1 ≤ m) (hm2 : m ≤ 12) :
    ∀ c ∈ renderDBY4 d m y, isSpaceCh c = false := by
  intro c hc
  simp only [renderDBY4, List.mem_append, List.mem_cons] at hc
  rcases hc with h | rfl | h | rfl | h
  · exact noSpace_pad2 d c h
  · decide
  · exact noSpace_monAbbr m hm1 hm2 c h
  · decide
  · exact noSpace_pad4 y c h

theorem parse_date_renderDMY4 (d m y : Nat) (hm1 : 1 ≤ m) (hm2 : m ≤ 12) (hd1 : 1 ≤ d)
    (hd2 : d ≤ daysInMonth y m) (hy1 : 1969 ≤ y) (hy2 : y ≤ 2068) :
    _parse_date (some ⟨renderDMY4 d m y⟩) = some (isoStr y m d) := by
  have hd31 : d ≤ 31 := le_trans hd2 (daysInMonth_le31 y m)
  have t1 : tryFmt parseFmtDMY4 (renderDMY4 d m y) = some (isoStr y m d) := by
    simp only [tryFmt, parseFmtDMY4_render d m y hd1 hd31 hm1 hm2 (by omega),
      validDate_true y m d (by omega) (by omega) hm1 hm2 hd1 hd2, if_true]
  rw [parse_date_mk _ (by simp [renderDMY4, pad2]) (noSpace_renderDMY4 d m y)]
  simp only [t1]
  rfl

theorem parse_date_renderDMY2 (d m y : Nat) (hm1 : 1 ≤ m) (hm2 : m ≤ 12) (hd1 : 1 ≤ d)
    (hd2 : d ≤ daysInMonth y m) (hy1 : 1969 ≤ y) (hy2 : y ≤ 2068) :
    _parse_date (some ⟨renderDMY2 d m y⟩) = some (isoStr y m d) := by
  have hd31 : d ≤ 31 := le_trans hd2 (daysInMonth_le31 y m)
  have t1 : tryFmt parseFmtDMY4 (renderDMY2 d m y) = none := by
    simp only [tryFmt, parseFmtDMY4_renderDMY2 d m y hd1 hd31 hm1 hm2]
  have h := parseFmtDMY2_render d m y hd1 hd31 hm1 hm2
  rw [yCentury_mod y hy1 hy2] at h
  have t2 : tryFmt parseFmtDMY2 (renderDMY2 d m y) = some (isoStr y m d) := by
    simp only [tryFmt, h,
      validDate_true y m d (by omega) (by omega) hm1 hm2 hd1 hd2, if_true]
  rw [parse_date_mk _ (by simp [renderDMY2, pad2]) (noSpace_renderDMY2 d m y)]
  simp only [t1, t2]
  rfl

theorem parse_date_renderDBY2 (d m y : Nat) (hm1 : 1 ≤ m) (hm2 : m ≤ 12) (hd1 : 1 ≤ d)
    (hd2 : d ≤ daysInMonth y m) (hy1 : 1969 ≤ y) (hy2 : y ≤ 2068) :
    _parse_date (some ⟨renderDBY2 d m y⟩) = some (isoStr y m d) := by
  have hd31 : d ≤ 31 := le_trans hd2 (daysInMonth_le31 y m)
  have t1 : tryFmt parseFmtDMY4 (renderDBY2 d m y) = none := by
    simp only [tryFmt, parseFmtDMY4_renderDBY2 d m y hd1 hd31]
  have t2 : tryFmt parseFmtDMY2 (renderDBY2 d m y) = none := by
    simp only [tryFmt, parseFmtDMY2_renderDBY2 d m y hd1 hd31]
  have h := parseFmtDBY2_render d m y hd1 hd31 hm1 hm2
  rw [yCentury_mod y hy1 hy2] at h
  have t3 : tryFmt parseFmtDBY2 (renderDBY2 d m y) = some (isoStr y m d) := by
    simp only [tryFmt, h,
      validDate_true y m d (by omega) (by omega) hm1 hm2 hd1 hd2, if_true]
  rw [parse_date_mk _ (by simp [renderDBY2, pad2]) (noSpace_renderDBY2 d m y hm1 hm2)]
  simp only [t1, t2, t3]
  rfl

theorem parse_date_renderDBY4 (d m y : Nat) (hm1 : 1 ≤ m) (hm2 : m ≤ 12) (hd1 : 1 ≤ d)
    (hd2 : d ≤ daysInMonth y m) (hy1 : 1969 ≤ y) (hy2 : y ≤ 2068) :
    _parse_date (some ⟨renderDBY4 d m y⟩) = some (isoStr y m d) := by
  have hd31 : d ≤ 31 := le_trans hd2 (daysInMonth_le31 y m)
  have t1 : tryFmt parseFmtDMY4 (renderDBY4 d m y) = none := by
    simp only [tryFmt, parseFmtDMY4_renderDBY4 d m y hd1 hd31]
  have t2 : tryFmt parseFmtDMY2 (renderDBY4 d m y) = none := by
    simp only [tryFmt, parseFmtDMY2_renderDBY4 d m y hd1 hd31]
  have t3 : tryFmt parseFmtDBY2 (renderDBY4 d m y) = none := by
    simp only [tryFmt, parseFmtDBY2_renderDBY4 d m y hd1 hd31 hm1 hm2]
  have t4 : tryFmt parseFmtDBY4 (renderDBY4 d m y) = some (isoStr y m d) := by
    simp only [tryFmt, parseFmtDBY4_render d m y hd1 hd31 hm1 hm2 (by omega),
      validDate_true y m d (by omega) (by omega) hm1 hm2 hd1 hd2, if_true]
  rw [parse_date_mk _ (by simp [renderDBY4, pad2]) (noSpace_renderDBY4 d m y hm1 hm2)]
  simp only [t1, t2, t3, t4]
  rfl

/-! ## Claim theorems -/

/-- C7: for every calendar date representable in all four recognized
source formats (the two-digit-year formats can express exactly the years
1969–2068 under CPython's `%y` century rule, so those are the
representable dates), `_parse_date` maps each of the four renderings to
the same canonical ISO `YYYY-MM-DD` string; in particular "05/03/2024",
"05-Mar-24" and "05-Mar-2024" all yield "2024-03-05". -/
theorem C7_four_formats_agree :
    (∀ d m y : Nat, 1 ≤ m → m ≤ 12 → 1 ≤ d → d ≤ daysInMonth y m →
      1969 ≤ y → y ≤ 2068 →
      (_parse_date (some ⟨renderDMY4 d m y⟩) = some (isoStr y m d) ∧
       _parse_date (some ⟨renderDMY2 d m y⟩) = some (isoStr y m d) ∧
       _parse_date (some ⟨renderDBY2 d m y⟩) = some (isoStr y m d) ∧
       _parse_date (some ⟨renderDBY4 d m y⟩) = some (isoStr y m d))) ∧
    _parse_date (some "05/03/2024") = some "2024-03-05" ∧
    _parse_date (some "05-Mar-24") = some "2024-03-05" ∧
    _parse_date (some "05-Mar-2024") = some "2024-03-05" := by
  refine ⟨fun d m y hm1 hm2 hd1 hd2 hy1 hy2 =>
    ⟨parse_date_renderDMY4 d m y hm1 hm2 hd1 hd2 hy1 hy2,
     parse_date_renderDMY2 d m y hm1 hm2 hd1 hd2 hy1 hy2,
     parse_date_renderDBY2 d m y hm1 hm2 hd1 hd2 hy1 hy2,
     parse_date_renderDBY4 d m y hm1 hm2 hd1 hd2 hy1 hy2⟩,
    by decide, by decide, by decide⟩

/-- Witness for C7 at the concrete date 5 March 2024. -/
theorem C7_four_formats_agree_witness :
    _parse_date (some ⟨renderDMY4 5 3 2024⟩) = some (isoStr 2024 3 5) ∧
    _parse_date (some ⟨renderDMY2 5 3 2024⟩) = some (isoStr 2024 3 5) ∧
    _parse_date (some ⟨renderDBY2 5 3 2024⟩) = some (isoStr 2024 3 5) ∧
    _parse_date (some ⟨renderDBY4 5 3 2024⟩) = some (isoStr 2024 3 5) :=
  C7_four_formats_agree.1 5 3 2024 (by decide) (by decide) (by decide) (by decide)
    (by decide) (by decide)

theorem stripCommas_idem (s : String) : stripCommas (stripCommas s) = stripCommas s := by
  simp [stripCommas, List.filter_filter]

/-- C8: `_to_float` is total — it is a function returning `none` or a
value for every string, never an exception; "", "-", "--" and garbage
text yield `none`; comma thousands-separators are transparent, both in
general and on the claim's concrete instance
`parse_amount("1,234.50") == parse_amount("1234.50") == 1234.50`. -/
theorem C8_to_float_total :
    (∀ s : String, _to_float (some s) = none ∨ ∃ q, _to_float (some s) = some q) ∧
    _to_float (some "") = none ∧
    _to_float (some "-") = none ∧
    _to_float (some "--") = none ∧
    _to_float (some "random garbage !!") = none ∧
    (∀ s : String, _to_float (some s) = _to_float (some (stripCommas s))) ∧
    _to_float (some "1,234.50") = some (2469 / 2 : ℚ) ∧
    _to_float (some "1234.50") = some (2469 / 2 : ℚ) := by
  refine ⟨?_, by decide, by decide, by decide, by decide, ?_, ?_, ?_⟩
  · intro s
    cases h : _to_float (some s) with
    | none => exact Or.inl rfl
    | some q => exact Or.inr ⟨q, rfl⟩
  · intro s
    simp only [_to_float, prepAmount, stripCommas_idem]
  · have h : _to_float (some "1,234.50") = some (mkRat 123450 100) := rfl
    rw [h, Rat.mkRat_eq_div]
    norm_num
  · have h : _to_float (some "1234.50") = some (mkRat 123450 100) := rfl
    rw [h, Rat.mkRat_eq_div]
    norm_num

/-- Witness for C8: the comma-transparency component applied at a
concrete input. -/
theorem C8_to_float_total_witness : _to_float (some "9,9") = _to_float (some "99") := by
  have h := C8_to_float_total.2.2.2.2.2.1 "9,9"
  rwa [show stripCommas "9,9" = "99" from by decide] at h

/-- C9: decrypting with the empty-string password behaves exactly like
supplying no password (`if not password` is true for both): the document
bytes are returned unchanged and no `InvalidCredentials` failure can
occur, even when the document is protected. -/
theorem C9_empty_password_noop (doc : PdfDoc) :
    maybe_decrypt doc (some "") = Except.ok doc ∧
    maybe_decrypt doc (some "") = maybe_decrypt doc none := ⟨rfl, rfl⟩

/-- Witness for C9 at a concrete protected document. -/
theorem C9_empty_password_noop_witness :
    maybe_decrypt ⟨[[[[some "x"]]]], true, "secret"⟩ (some "") =
      Except.ok ⟨[[[[some "x"]]]], true, "secret"⟩ :=
  (C9_empty_password_noop ⟨[[[[some "x"]]]], true, "secret"⟩).1

/-! ### First-match characterization of `_match_field` -/

theorem matchFieldGo_some (key : String) :
    ∀ (l : List String) (k i : Nat),
      matchFieldGo key l k = some i ↔
        ∃ j, i = k + j ∧ (∃ c, l[j]? = some c ∧ aliasHit key c = true) ∧
          ∀ j2, j2 < j → ∀ c, l[j2]? = some c → aliasHit key c = false := by
  intro l
  induction l with
  | nil =>
    intro k i
    simp [matchFieldGo]
  | cons a t ih =>
    intro k i
    unfold matchFieldGo
    by_cases h : aliasHit key a
    · rw [if_pos h]
      constructor
      · rintro hk
        refine ⟨0, by simpa using hk.symm, ⟨a, by simp, h⟩, by omega⟩
      · rintro ⟨j, rfl, ⟨c, hc, hhit⟩, hprev⟩
        rcases Nat.eq_zero_or_pos j with rfl | hj
        · simp
        · have := hprev 0 hj a (by simp)
          rw [h] at this
          cases this
    · rw [if_neg h]
      rw [ih (k + 1) i]
      constructor
      · rintro ⟨j, rfl, ⟨c, hc, hhit⟩, hprev⟩
        refine ⟨j + 1, by omega, ⟨c, by simpa using hc, hhit⟩, ?_⟩
        intro j2 hj2 c2 hc2
        rcases Nat.eq_zero_or_pos j2 with rfl | hpos
        · simp only [List.getElem?_cons_zero, Option.some_inj] at hc2
          subst hc2
          exact Bool.eq_false_iff.mpr h
        · obtain ⟨j3, rfl⟩ := Nat.exists_eq_add_of_lt hpos
          simp only [Nat.zero_add] at hc2 ⊢
          exact hprev j3 (by omega) c2 (by simpa using hc2)
      · rintro ⟨j, hij, ⟨c, hc, hhit⟩, hprev⟩
        rcases Nat.eq_zero_or_pos j with rfl | hpos
        · simp only [List.getElem?_cons_zero, Option.some_inj] at hc
          subst hc
          rw [hhit] at h
          cases h rfl
        · obtain ⟨j3, rfl⟩ := Nat.exists_eq_add_of_lt hpos
          refine ⟨j3, by omega, ⟨c, by simpa using hc, hhit⟩, ?_⟩
          intro j2 hj2 c2 hc2
          exact hprev (j2 + 1) (by omega) c2 (by simpa using hc2)

/-- C5 (amended): `_match_field` resolves each field independently by
first match: it returns `some i` exactly when column `i` is the leftmost
column whose lowered text contains one of the field's aliases.  (The
original claim's cross-field exclusivity does not hold — see the
counterexample — since each field scans all columns on its own.) -/
theorem C5_first_match (row : List (Option String)) (key : String) (i : Nat) :
    _match_field row key = some i ↔
      (∃ c, row[i]? = some c ∧ aliasHit key (lowCell c) = true) ∧
      ∀ j, j < i → ∀ c, row[j]? = some c → aliasHit key (lowCell c) = false := by
  unfold _match_field
  rw [matchFieldGo_some]
  constructor
  · rintro ⟨j, rfl, ⟨c, hc, hhit⟩, hprev⟩
    simp only [Nat.zero_add] at *
    rw [List.getElem?_map] at hc
    rcases Option.map_eq_some'.mp hc with ⟨c0, hc0, rfl⟩
    refine ⟨⟨c0, hc0, hhit⟩, ?_⟩
    intro j2 hj2 c2 hc2
    exact hprev j2 hj2 (lowCell c2) (by rw [List.getElem?_map, hc2]; rfl)
  · rintro ⟨⟨c, hc, hhit⟩, hprev⟩
    refine ⟨i, by omega, ⟨lowCell c, by rw [List.getElem?_map, hc]; rfl, hhit⟩, ?_⟩
    intro j2 hj2 c2 hc2
    rw [List.getElem?_map] at hc2
    rcases Option.map_eq_some'.mp hc2 with ⟨c0, hc0, rfl⟩
    exact hprev j2 hj2 c0 hc0

/-- Witness for C5: the characterization applied to a concrete header. -/
theorem C5_first_match_witness :
    ∃ c, [some "Value Dt", some "Txn Date"][1]? = some c ∧
      aliasHit "date" (lowCell c) = true :=
  ((C5_first_match [some "Value Dt", some "Txn Date"] "date" 1).mp (by decide)).1

/-- Counterexample for C5 as stated: one single column satisfies BOTH the
`date` field and the `narration` field — distinct fields resolve to the
same column index 0. -/
theorem C5_counterexample :
    _match_field [some "txn date particulars"] "date" = some 0 ∧
    _match_field [some "txn date particulars"] "narration" = some 0 ∧
    "date" ≠ "narration" := ⟨by decide, by decide, by decide⟩

/-! ### Permutation behaviour of header resolution -/

theorem matchFieldGo_shift (key : String) (l : List String) :
    ∀ k, matchFieldGo key l k = (matchFieldGo key l 0).map fun j => k + j := by
  induction l with
  | nil => intro k; rfl
  | cons a t ih =>
    intro k
    unfold matchFieldGo
    by_cases h : aliasHit key a
    · rw [if_pos h, if_pos h]
      simp
    · rw [if_neg h, if_neg h]
      rw [ih (k + 1), ih 1, Option.map_map]
      have hcomp : ((fun j => k + j) ∘ fun j => 1 + j) = fun j => k + 1 + j :=
        funext fun j => by simp only [Function.comp_apply]; omega
      rw [hcomp]

/-- The designated cell is the first cell whose lowered text matches. -/
theorem matchedCell_eq_head (row : List (Option String)) (key : String) :
    matchedCell row key = (row.filter fun c => aliasHit key (lowCell c)).head? := by
  induction row with
  | nil => rfl
  | cons a t ih =>
    unfold matchedCell _match_field
    simp only [List.map_cons]
    unfold matchFieldGo
    by_cases h : aliasHit key (lowCell a)
    · rw [if_pos h]
      simp [List.filter_cons, h]
    · rw [if_neg h]
      rw [matchFieldGo_shift key _ 1]
      rw [List.filter_cons_of_neg (by simpa using h)]
      rw [← ih]
      unfold matchedCell _match_field
      cases matchFieldGo key (t.map lowCell) 0 with
      | none => rfl
      | some j =>
        simp only [Option.map_some', Option.some_bind]
        rw [Nat.add_comm 1 j]
        exact List.getElem?_cons_succ

theorem matchField_isSome_iff_any (row : List (Option String)) (key : String) :
    (_match_field row key).isSome = (row.any fun c => aliasHit key (lowCell c)) := by
  induction row with
  | nil => rfl
  | cons a t ih =>
    unfold _match_field
    simp only [List.map_cons, List.any_cons]
    unfold matchFieldGo
    by_cases h : aliasHit key (lowCell a)
    · rw [if_pos h, h]
      rfl
    · rw [if_neg h, Bool.eq_false_iff.mpr h, Bool.false_or,
        matchFieldGo_shift key _ 1, Option.isSome_map']
      exact ih

/-- C6 (amended): permuting the columns of a header row preserves WHICH
fields resolve; and when at most one column of the row matches the field,
the resolved index designates the same cell after permutation.  (Without
that uniqueness the original claim fails — see the counterexample — since
`_match_field` takes the first of several matching columns, which
permutation can change.) -/
theorem C6_perm_header (row row' : List (Option String)) (key : String)
    (hp : List.Perm row row') :
    ((_match_field row key).isSome ↔ (_match_field row' key).isSome) ∧
    ((row.countP fun c => aliasHit key (lowCell c)) ≤ 1 →
      matchedCell row key = matchedCell row' key) := by
  constructor
  · rw [matchField_isSome_iff_any, matchField_isSome_iff_any]
    constructor <;> intro h
    · rcases List.any_eq_true.mp h with ⟨c, hc, hhit⟩
      exact List.any_eq_true.mpr ⟨c, hp.mem_iff.mp hc, hhit⟩
    · rcases List.any_eq_true.mp h with ⟨c, hc, hhit⟩
      exact List.any_eq_true.mpr ⟨c, hp.mem_iff.mpr hc, hhit⟩
  · intro hcount
    rw [matchedCell_eq_head, matchedCell_eq_head]
    have hpf : List.Perm (row.filter fun c => aliasHit key (lowCell c))
        (row'.filter fun c => aliasHit key (lowCell c)) := hp.filter _
    have hlen : (row.filter fun c => aliasHit key (lowCell c)).length ≤ 1 := by
      rw [← List.countP_eq_length_filter]
      exact hcount
    match hmf : row.filter fun c => aliasHit key (lowCell c) with
    | [] =>
      rw [hmf] at hpf
      rw [List.Perm.nil_eq hpf]
    | [x] =>
      rw [hmf] at hpf
      rw [List.perm_singleton.mp hpf.symm]
    | x :: y :: rest =>
      rw [hmf] at hlen
      simp at hlen

/-- Witness for C6: the amended theorem applied to a concrete two-column
header and its swap. -/
theorem C6_perm_header_witness :
    matchedCell [some "Date", some "Debit"] "date" =
      matchedCell [some "Debit", some "Date"] "date" :=
  (C6_perm_header [some "Date", some "Debit"] [some "Debit", some "Date"] "date"
    (List.Perm.swap (some "Debit") (some "Date") [])).2 (by decide)

/-- Counterexample for C6 as stated: two columns both match the `date`
field ("txn date" and "value date"); swapping them changes which cell the
resolved index designates, so the resolved index does NOT designate the
same cell after the permutation. -/
theorem C6_counterexample :
    List.Perm [some "txn date", some "value date"] [some "value date", some "txn date"] ∧
    matchedCell [some "txn date", some "value date"] "date" = some (some "txn date") ∧
    matchedCell [some "value date", some "txn date"] "date" = some (some "value date") ∧
    (some "txn date" : Option String) ≠ some "value date" :=
  ⟨List.Perm.swap (some "value date") (some "txn date") [], by decide, by decide, by decide⟩

/-! ### Inversion lemmas for the row pipeline -/

theorem tryFmt_some_ne (p : List Char → Option (Nat × Nat × Nat)) (cs : List Char)
    (s : String) (he : tryFmt p cs = some s) : s ≠ "" := by
  unfold tryFmt at he
  split at he
  · split at he
    · injection he with he
      subst he
      simp [isoStr, String.ext_iff, pad4]
    · cases he
  · cases he

theorem parse_date_some_ne (x : Option String) (s : String)
    (he : _parse_date x = some s) : s ≠ "" := by
  match x with
  | none => simp [_parse_date] at he
  | some v =>
    simp only [_parse_date] at he
    split at he
    · cases he
    · rcases (Option.orElse_eq_some' _ _ _).mp he with h | ⟨_, h⟩
      · exact tryFmt_some_ne _ _ _ h
      · rcases (Option.orElse_eq_some' _ _ _).mp h with h | ⟨_, h⟩
        · exact tryFmt_some_ne _ _ _ h
        · rcases (Option.orElse_eq_some' _ _ _).mp h with h | ⟨_, h⟩
          · exact tryFmt_some_ne _ _ _ h
          · exact tryFmt_some_ne _ _ _ h

theorem rowToTxn_some_inv (hh : HeaderIdx) (r : List (Option String)) (t : Txn)
    (he : rowToTxn hh r = some t) :
    (dateOf hh r).isSome = true ∧
    t.date = (dateOf hh r).getD "" ∧
    t.narration = (if narrOf hh r = "" then refOf hh r else narrOf hh r) ∧
    t.refNo = refOf hh r ∧
    t.debit = debOf hh r ∧
    t.credit = creOf hh r ∧
    t.balance = "" ∧
    (¬debOf hh r = 0 ∨ ¬creOf hh r = 0 ∨ ¬narrOf hh r = "" ∨ ¬refOf hh r = "") := by
  unfold rowToTxn at he
  split at he
  case isTrue hA =>
    split at he
    · cases he
    · injection he with he
      subst he
      simp only [Bool.and_eq_true, Bool.or_eq_true, Bool.not_eq_true',
        decide_eq_false_iff_not] at hA
      exact ⟨hA.1, rfl, rfl, rfl, rfl, rfl, rfl, by tauto⟩
  case isFalse => cases he

theorem mem_tableTxns (t : Txn) (tbl : Grid) (ht : t ∈ tableTxns tbl) :
    ∃ hdr dataRows r, tbl = hdr :: dataRows ∧ r ∈ dataRows ∧
      rowToTxn (resolveHeader hdr) r = some t := by
  match tbl with
  | [] => simp [tableTxns] at ht
  | hdr :: dataRows =>
    simp only [tableTxns] at ht
    split at ht
    · cases ht
    · split at ht
      · cases ht
      · rcases List.mem_filterMap.mp ht with ⟨r, hr, hrt⟩
        exact ⟨hdr, dataRows, r, rfl, hr, hrt⟩

theorem mem_allTxns_inv (pages : List (List Grid)) (t : Txn) (ht : t ∈ allTxns pages) :
    ∃ hh r, rowToTxn hh r = some t := by
  unfold allTxns at ht
  rcases List.mem_flatMap.mp ht with ⟨page, _, ht2⟩
  rcases List.mem_flatMap.mp ht2 with ⟨tbl, _, ht3⟩
  rcases mem_tableTxns t tbl ht3 with ⟨hdr, dataRows, r, _, _, hrt⟩
  exact ⟨resolveHeader hdr, r, hrt⟩

/-- C3 (amended): every transaction of a successful conversion has a
non-empty (non-null) date and at least one of {debit ≠ 0, credit ≠ 0,
narration non-empty, reference non-empty}; every data row with no parsed
date or with zero amounts and empty narration and reference is dropped.
(The original claim's `debit > 0, credit > 0` fails on the code: Python
truthiness makes the row filter test `deb or cre` for being NONZERO, and
`_to_float` accepts negative amounts — see the counterexample.) -/
theorem C3_invariant (pages : List (List Grid)) (l : List Txn)
    (hok : parse_hdfc_pdf pages = Except.ok l) :
    (∀ t ∈ l, t.date ≠ "" ∧
      (¬t.debit = 0 ∨ ¬t.credit = 0 ∨ ¬t.narration = "" ∨ ¬t.refNo = "")) ∧
    (∀ (hh : HeaderIdx) (r : List (Option String)),
      ((dateOf hh r).isSome = false ∨
        (debOf hh r = 0 ∧ creOf hh r = 0 ∧ narrOf hh r = "" ∧ refOf hh r = "")) →
      rowToTxn hh r = none) := by
  constructor
  · intro t htl
    have hl : l = allTxns pages := by
      simp only [parse_hdfc_pdf] at hok
      split at hok
      · cases hok
      · injection hok with h
        exact h.symm
    subst hl
    rcases mem_allTxns_inv pages t htl with ⟨hh, r, hrt⟩
    rcases rowToTxn_some_inv hh r t hrt with
      ⟨hds, hdate, hnarr, href, hdeb, hcre, _, hor⟩
    constructor
    · rcases Option.isSome_iff_exists.mp hds with ⟨ds, hds2⟩
      rw [hdate, hds2, Option.getD_some]
      exact parse_date_some_ne _ ds hds2
    · rw [hnarr, href, hdeb, hcre]
      rcases hor with h | h | h | h
      · exact Or.inl h
      · exact Or.inr (Or.inl h)
      · refine Or.inr (Or.inr (Or.inl ?_))
        rw [if_neg h]
        exact h
      · by_cases hn : narrOf hh r = ""
        · refine Or.inr (Or.inr (Or.inl ?_))
          rw [if_pos hn]
          exact h
        · refine Or.inr (Or.inr (Or.inl ?_))
          rw [if_neg hn]
          exact hn
  · intro hh r hc
    rcases hc with h | ⟨h1, h2, h3, h4⟩
    · simp [rowToTxn, h]
    · simp [rowToTxn, h1, h2, h3, h4]

/-- Witness for C3 at a concrete one-row document. -/
theorem C3_invariant_witness :
    (⟨"2024-04-03", "", "", 8, 0, ""⟩ : Txn).date ≠ "" ∧
    (¬(⟨"2024-04-03", "", "", 8, 0, ""⟩ : Txn).debit = 0 ∨
     ¬(⟨"2024-04-03", "", "", 8, 0, ""⟩ : Txn).credit = 0 ∨
     ¬(⟨"2024-04-03", "", "", 8, 0, ""⟩ : Txn).narration = "" ∨
     ¬(⟨"2024-04-03", "", "", 8, 0, ""⟩ : Txn).refNo = "") :=
  (C3_invariant [[[[some "Date", some "Withdrawal Amt."], [some "03/04/2024", some "8"]]]]
    [⟨"2024-04-03", "", "", 8, 0, ""⟩] rfl).1
    ⟨"2024-04-03", "", "", 8, 0, ""⟩ (by decide)

/-- Counterexample for C3 as stated: the row `["01/04/2024", "-5"]` under
header `["Date", "Withdrawal Amt."]` is emitted (debit `-5` is truthy in
Python), yet the resulting transaction satisfies NONE of
`{debit > 0, credit > 0, narration ≠ "", reference ≠ ""}`. -/
theorem C3_counterexample :
    parse_hdfc_pdf [[[[some "Date", some "Withdrawal Amt."],
        [some "01/04/2024", some "-5"]]]] =
      Except.ok [⟨"2024-04-01", "", "", -5, 0, ""⟩] ∧
    ¬((0 : ℚ) < (⟨"2024-04-01", "", "", -5, 0, ""⟩ : Txn).debit ∨
      (0 : ℚ) < (⟨"2024-04-01", "", "", -5, 0, ""⟩ : Txn).credit ∨
      (⟨"2024-04-01", "", "", -5, 0, ""⟩ : Txn).narration ≠ "" ∨
      (⟨"2024-04-01", "", "", -5, 0, ""⟩ : Txn).refNo ≠ "") :=
  ⟨rfl, by decide⟩

/-! ### Sign analysis of the amount parser -/

theorem qpow10_nonneg (e : Int) : 0 ≤ qpow10 e := by
  cases e with
  | ofNat n =>
    simp only [qpow10]
    exact_mod_cast Nat.zero_le _
  | negSucc n =>
    simp only [qpow10]
    rw [Rat.mkRat_eq_div]
    positivity

theorem mantissaVal_nonneg (ip fp : List Char) : 0 ≤ mantissaVal ip fp := by
  unfold mantissaVal
  rw [Rat.mkRat_eq_div]
  positivity

theorem parseUnsigned_nonneg (cs : List Char) (q : ℚ) (h : parseUnsigned cs = some q) :
    0 ≤ q := by
  simp only [parseUnsigned] at h
  split at h
  · split at h
    · cases h
    · injection h with h
      subst h
      exact_mod_cast Nat.zero_le _
  · split at h
    · cases h
    · split at h
      · injection h with h
        subst h
        exact mantissaVal_nonneg _ _
      · rcases Option.map_eq_some'.mp h with ⟨e, _, rfl⟩
        exact mul_nonneg (mantissaVal_nonneg _ _) (qpow10_nonneg e)
      · rcases Option.map_eq_some'.mp h with ⟨e, _, rfl⟩
        exact mul_nonneg (mantissaVal_nonneg _ _) (qpow10_nonneg e)
      · cases h
  · split at h
    · cases h
    · rcases Option.map_eq_some'.mp h with ⟨e, _, rfl⟩
      exact mul_nonneg (by exact_mod_cast Nat.zero_le _) (qpow10_nonneg e)
  · split at h
    · cases h
    · rcases Option.map_eq_some'.mp h with ⟨e, _, rfl⟩
      exact mul_nonneg (by exact_mod_cast Nat.zero_le _) (qpow10_nonneg e)
  · cases h

theorem parseFloatChars_nonneg (cs : List Char) (q : ℚ)
    (h : parseFloatChars cs = some q) (hm : ¬ '-' ∈ cs) : 0 ≤ q := by
  unfold parseFloatChars at h
  split at h
  · exact absurd (List.mem_cons_self _ _) hm
  · exact parseUnsigned_nonneg _ _ h
  · exact parseUnsigned_nonneg _ _ h

theorem to_float_nonneg (v : String) (q : ℚ) (h : _to_float (some v) = some q)
    (hm : ¬ '-' ∈ (prepAmount v).data) : 0 ≤ q := by
  simp only [_to_float] at h
  split at h
  · cases h
  · exact parseFloatChars_nonneg _ _ h hm

/-- C4 (amended): every transaction of a successful conversion has
`balance = ""`; debit and credit are decimal values that are non-negative
whenever their source cell carries no minus sign (and default to 0 for an
absent cell) — but a source cell with a minus sign passes through as a
NEGATIVE amount, so the original unconditional non-negativity fails (see
the counterexample). -/
theorem C4_output_fields (pages : List (List Grid)) (l : List Txn)
    (hok : parse_hdfc_pdf pages = Except.ok l) :
    (∀ t ∈ l, t.balance = "") ∧
    (∀ (hh : HeaderIdx) (r : List (Option String)) (t : Txn), rowToTxn hh r = some t →
      (∀ v, safeCell r hh.iDeb = some v → ¬ '-' ∈ (prepAmount v).data → 0 ≤ t.debit) ∧
      (∀ v, safeCell r hh.iCred = some v → ¬ '-' ∈ (prepAmount v).data → 0 ≤ t.credit) ∧
      (safeCell r hh.iDeb = none → t.debit = 0) ∧
      (safeCell r hh.iCred = none → t.credit = 0)) := by
  constructor
  · intro t htl
    have hl : l = allTxns pages := by
      simp only [parse_hdfc_pdf] at hok
      split at hok
      · cases hok
      · injection hok with h
        exact h.symm
    subst hl
    rcases mem_allTxns_inv pages t htl with ⟨hh, r, hrt⟩
    exact (rowToTxn_some_inv hh r t hrt).2.2.2.2.2.2.1
  · intro hh r t hrt
    rcases rowToTxn_some_inv hh r t hrt with ⟨_, _, _, _, hdeb, hcre, _, _⟩
    refine ⟨?_, ?_, ?_, ?_⟩
    · intro v hv hm
      rw [hdeb]
      unfold debOf
      rw [hv]
      cases hf : _to_float (some v) with
      | none => simp
      | some q =>
        rw [Option.getD_some]
        exact to_float_nonneg v q hf hm
    · intro v hv hm
      rw [hcre]
      unfold creOf
      rw [hv]
      cases hf : _to_float (some v) with
      | none => simp
      | some q =>
        rw [Option.getD_some]
        exact to_float_nonneg v q hf hm
    · intro hv
      rw [hdeb]
      unfold debOf
      rw [hv]
      rfl
    · intro hv
      rw [hcre]
      unfold creOf
      rw [hv]
      rfl

/-- Witness for C4 at a concrete one-row document. -/
theorem C4_output_fields_witness :
    (⟨"2024-04-02", "", "", 0, 9, ""⟩ : Txn).balance = "" :=
  (C4_output_fields [[[[some "Date", some "Deposit Amt."], [some "02/04/2024", some "9"]]]]
    [⟨"2024-04-02", "", "", 0, 9, ""⟩] rfl).1
    ⟨"2024-04-02", "", "", 0, 9, ""⟩ (by decide)

/-- Counterexample for C4 as stated: a debit cell `"-7"` produces an
emitted transaction whose debit field is negative. -/
theorem C4_counterexample :
    parse_hdfc_pdf [[[[some "Date", some "Withdrawal Amt."],
        [some "02/04/2024", some "-7"]]]] =
      Except.ok [⟨"2024-04-02", "", "", -7, 0, ""⟩] ∧
    (⟨"2024-04-02", "", "", -7, 0, ""⟩ : Txn).debit < 0 :=
  ⟨rfl, by decide⟩

/-- C2 (amended): an empty result is reported through ONE classification:
whenever zero rows survive — whether because the document had zero grids
or because grids were found but no row passed validation —
`parse_hdfc_pdf` fails with the same single message, so the two causes
are NOT distinguishable by the caller (the original claim of two distinct
classifications fails — see the counterexample). -/
theorem C2_single_empty_failure (pages : List (List Grid)) :
    (allTxns pages = [] → parse_hdfc_pdf pages = Except.error noTableMsg) ∧
    (∀ s, parse_hdfc_pdf pages = Except.error s → s = noTableMsg) := by
  constructor
  · intro h
    simp [parse_hdfc_pdf, h]
  · intro s hs
    simp only [parse_hdfc_pdf] at hs
    split at hs
    · injection hs with h
      exact h.symm
    · cases hs

/-- Witness for C2 at the zero-grid document. -/
theorem C2_single_empty_failure_witness :
    parse_hdfc_pdf [([] : List Grid)] = Except.error noTableMsg :=
  (C2_single_empty_failure [([] : List Grid)]).1 rfl

/-- Counterexample for C2 as stated: a document with zero grids and a
document with one ACCEPTED grid (header resolves, one data row) whose
rows all fail validation produce literally the same error — there is no
`NoTransactionsExtracted` distinct from `NoTableFound` in the code. -/
theorem C2_counterexample :
    parse_hdfc_pdf [([] : List Grid)] = Except.error noTableMsg ∧
    parse_hdfc_pdf [[[[some "Date", some "Withdrawal Amt."], [some "xx"]]]] =
      Except.error noTableMsg :=
  ⟨rfl, rfl⟩

/-- C10: the "total" summary-row filter inspects only the ORIGINAL
narration cell, before the reference fallback: a data row with empty
narration, a reference containing "total" (any case) and a parsed date is
not excluded, and is emitted with its displayed narration equal to the
reference text (hence containing "total"). -/
theorem C10_total_filter_pre_fallback (hh : HeaderIdx) (r : List (Option String))
    (hn : narrOf hh r = "")
    (href : containsSub "total".data (lowerStr (refOf hh r)).data = true)
    (hd : (dateOf hh r).isSome = true) :
    rowToTxn hh r =
      some
        { date := (dateOf hh r).getD "",
          narration := refOf hh r,
          refNo := refOf hh r,
          debit := debOf hh r,
          credit := creOf hh r,
          balance := "" } ∧
    containsSub "total".data (lowerStr (refOf hh r)).data = true := by
  have hrefne : ¬refOf hh r = "" := by
    intro h0
    rw [h0] at href
    exact absurd href (by decide)
  have hcond : ((dateOf hh r).isSome &&
      (!(debOf hh r = 0) || !(creOf hh r = 0) || !(narrOf hh r = "") ||
        !(refOf hh r = ""))) = true := by
    rw [hd]
    simp [hrefne]
  refine ⟨?_, href⟩
  unfold rowToTxn
  rw [if_pos hcond, hn]
  rw [if_neg (by decide : ¬containsSub "total".data (lowerStr "").data = true)]
  rw [if_pos rfl]

/-- Witness for C10 at a concrete row whose reference is "Sub Total 99". -/
theorem C10_total_filter_pre_fallback_witness :
    rowToTxn ⟨some 0, some 1, some 2, some 3, none⟩
        [some "01/04/2024", some "", some "Sub Total 99", some "5"] =
      some ⟨"2024-04-01", "Sub Total 99", "Sub Total 99", 5, 0, ""⟩ := by
  rw [(C10_total_filter_pre_fallback ⟨some 0, some 1, some 2, some 3, none⟩
    [some "01/04/2024", some "", some "Sub Total 99", some "5"]
    (by decide) (by decide) (by decide)).1]
  decide

/-- C1 (amended): for an unsupported institution code, table location
(`parse_hdfc_pdf`) is never invoked and — provided decryption did not
fail — the request fails with the "not supported" classification naming
the code.  However `maybe_decrypt` IS invoked before the institution
check (the call trace of every request begins with `unlockCall`), and
when decryption fails the request surfaces the decryption failure
instead of `UnsupportedInstitution` (see the counterexample). -/
theorem C1_unsupported_institution (bank : String) (doc : PdfDoc)
    (password : Option String) (hb : upperStr (trimStr bank) ≠ "HDFC") :
    (convert bank doc password).2 = [EngineCall.unlockCall] ∧
    ((∃ d, maybe_decrypt doc password = Except.ok d ∧
        (convert bank doc password).1 = ConvResult.unsupportedBank bank) ∨
     (∃ m, maybe_decrypt doc password = Except.error m ∧
        (convert bank doc password).1 = ConvResult.parseFailed m)) := by
  cases hm : maybe_decrypt doc password with
  | error msg =>
    refine ⟨?_, Or.inr ⟨msg, rfl, ?_⟩⟩ <;> simp [convert, hm]
  | ok d =>
    refine ⟨?_, Or.inl ⟨d, rfl, ?_⟩⟩ <;> simp [convert, hm, hb]

/-- Witness for C1 at a concrete unsupported request. -/
theorem C1_unsupported_institution_witness :
    (convert "ICICI" ⟨[], false, ""⟩ none).2 = [EngineCall.unlockCall] :=
  (C1_unsupported_institution "ICICI" ⟨[], false, ""⟩ none (by decide)).1

/-- Counterexample for C1 as stated: an unsupported institution code with
a wrong password on a protected document does NOT fail with the
"not supported" classification — decryption runs first (the trace shows
`unlockCall`) and its failure is what the caller sees. -/
theorem C1_counterexample :
    convert "ICICI" ⟨[], true, "secret"⟩ (some "wrong") =
      (ConvResult.parseFailed badPwdMsg, [EngineCall.unlockCall]) ∧
    ConvResult.parseFailed badPwdMsg ≠ ConvResult.unsupportedBank "ICICI" :=
  ⟨rfl, by decide⟩
